import Mathlib

/-!
Shallow embedding of the Pokémon TCG stock-tracker pipeline
(`api/pokemon_tcg_tracker.py` and `api/index.py`) and proofs about it.

Conventions of the embedding:
* Python strings are Lean `String`s; `s.lower()` is `lowerStr s` (all the
  strings involved are ASCII, where Python's `lower` agrees with
  `Char.toLower`); the Python substring test `needle in hay` is
  `strContains hay needle`.
* Python floats carrying prices are modelled as exact rationals (`Rat`);
  every price literal in the claims is exactly representable, so no
  rounding behaviour is involved.
* Python dicts used as ordered key→value tables (`retail_price_thresholds`)
  are association lists in insertion order.
* Network I/O is modelled by explicit oracles: `fetch_page` consumes a map
  from attempt index to the outcome of that attempt, and each retailer
  check consumes the fetched markup (an `Option String`) together with the
  listing elements the HTML library would extract from it.
-/

/-- ASCII lower-casing of a string, character by character: the embedding of
Python's `str.lower()` on the ASCII text this program handles. -/
def lowerStr (s : String) : String := String.mk (s.toList.map Char.toLower)

/-- `infixOf needle hay`: `needle` occurs as a contiguous run inside `hay`. -/
def infixOf (needle : List Char) : List Char → Bool
  | [] => needle.isEmpty
  | c :: cs => needle.isPrefixOf (c :: cs) || infixOf needle cs

/-- The embedding of Python's substring test `needle in hay`. -/
def strContains (hay needle : String) : Bool :=
  infixOf needle.toList hay.toList

/-- `determine_product_type` (pokemon_tcg_tracker.py, lines 70–113):
classifies a free-text product name by an ordered chain of keyword rules,
with `"unknown"` as the final fallback. -/
def determine_product_type (product_name : String) : String :=
  let nl := lowerStr product_name
  if strContains nl "booster box" then "booster box"
  else if strContains nl "elite trainer box" || strContains nl " etb" then
    "elite trainer box"
  else if strContains nl "booster pack" ||
      ((strContains nl "pack" || strContains nl "packs") &&
        !(strContains nl "booster")) then "booster pack"
  else if strContains nl "tin" then "tin"
  else if strContains nl "special collection" then "special collection"
  else if strContains nl "premium collection" then "premium collection"
  else if strContains nl "blister pack" || strContains nl "blister" then
    "blister pack"
  else if strContains nl "bundle" then "bundle"
  else if strContains nl "box" &&
      (strContains nl "booster" || strContains nl "boosters") then "booster box"
  else if strContains nl "box" &&
      (strContains nl "elite" || strContains nl "trainer") then
    "elite trainer box"
  else if strContains nl "collection" && strContains nl "premium" then
    "premium collection"
  else if strContains nl "collection" then "special collection"
  else if strContains nl "trading card" || strContains nl "tcg" ||
      strContains nl "cards" then
    if strContains nl "pack" then "booster pack" else "special collection"
  else "unknown"

/-- The spec's fixed ten-label category set (§3, CategoryLabel), written with
the spaces the code uses in place of the spec's hyphens. -/
def categoryLabels : List String :=
  ["booster box", "elite trainer box", "booster pack", "tin",
   "special collection", "premium collection", "blister pack", "bundle",
   "deck", "unknown"]

/-- Every keyword consulted by some condition of `determine_product_type`. -/
def classifierKeywords : List String :=
  ["booster box", "elite trainer box", " etb", "booster pack", "pack",
   "packs", "booster", "tin", "special collection", "premium collection",
   "blister pack", "blister", "bundle", "box", "boosters", "elite",
   "trainer", "collection", "premium", "trading card", "tcg", "cards"]

/-- An if-then-else of two members of a list is a member of the list. -/
theorem ite_mem_str {c : Prop} [Decidable c] {a b : String} {l : List String}
    (ha : a ∈ l) (hb : b ∈ l) : (if c then a else b) ∈ l := by
  split
  · exact ha
  · exact hb

/-- An if-then-else of two strings differing from `d` differs from `d`. -/
theorem ite_ne_str {c : Prop} [Decidable c] {a b d : String}
    (ha : a ≠ d) (hb : b ≠ d) : (if c then a else b) ≠ d := by
  split
  · exact ha
  · exact hb

/-- C1: the Category Classifier is total and deterministic: every name maps
to exactly one label of the fixed ten-label set, equal inputs give equal
labels, and a name containing none of the classifier's keywords falls
through to the explicit `"unknown"` fallback; being a pure total Lean
function, it never raises. -/
theorem classifier_total_deterministic :
    (∀ name, determine_product_type name ∈ categoryLabels) ∧
    (∀ a b, a = b → determine_product_type a = determine_product_type b) ∧
    (∀ name, (∀ kw ∈ classifierKeywords,
        strContains (lowerStr name) kw = false) →
      determine_product_type name = "unknown") := by
  refine ⟨?_, ?_, ?_⟩
  · intro name
    unfold determine_product_type
    dsimp only
    refine ite_mem_str (by decide) (ite_mem_str (by decide) (ite_mem_str (by decide)
      (ite_mem_str (by decide) (ite_mem_str (by decide) (ite_mem_str (by decide)
      (ite_mem_str (by decide) (ite_mem_str (by decide) (ite_mem_str (by decide)
      (ite_mem_str (by decide) (ite_mem_str (by decide) (ite_mem_str (by decide)
      (ite_mem_str (ite_mem_str (by decide) (by decide)) (by decide)))))))))))))
  · intro a b h; rw [h]
  · intro name h
    have h1 := h "booster box" (by decide)
    have h2 := h "elite trainer box" (by decide)
    have h3 := h " etb" (by decide)
    have h4 := h "booster pack" (by decide)
    have h5 := h "pack" (by decide)
    have h6 := h "packs" (by decide)
    have h7 := h "booster" (by decide)
    have h8 := h "tin" (by decide)
    have h9 := h "special collection" (by decide)
    have h10 := h "premium collection" (by decide)
    have h11 := h "blister pack" (by decide)
    have h12 := h "blister" (by decide)
    have h13 := h "bundle" (by decide)
    have h14 := h "box" (by decide)
    have h15 := h "boosters" (by decide)
    have h16 := h "elite" (by decide)
    have h17 := h "trainer" (by decide)
    have h18 := h "collection" (by decide)
    have h19 := h "premium" (by decide)
    have h20 := h "trading card" (by decide)
    have h21 := h "tcg" (by decide)
    have h22 := h "cards" (by decide)
    unfold determine_product_type
    dsimp only
    simp only [h1, h2, h3, h4, h5, h6, h7, h8, h9, h10, h11, h12, h13, h14,
      h15, h16, h17, h18, h19, h20, h21, h22, Bool.or_self, Bool.false_or,
      Bool.or_false, Bool.false_and, Bool.and_false, Bool.not_false,
      Bool.and_true, Bool.true_and, Bool.false_eq_true, if_false, ite_false]

/-- Witness for C1 at concrete inputs: "Mystery Item" matches no classifier
keyword and classifies to `"unknown"`, inside the label set. -/
theorem classifier_total_deterministic_witness :
    determine_product_type "Mystery Item" ∈ categoryLabels ∧
    determine_product_type "Mystery Item" = determine_product_type "Mystery Item" ∧
    determine_product_type "Mystery Item" = "unknown" :=
  ⟨classifier_total_deterministic.1 "Mystery Item",
   classifier_total_deterministic.2.1 "Mystery Item" "Mystery Item" rfl,
   classifier_total_deterministic.2.2 "Mystery Item" (by decide)⟩

/-- C2 counterexample: the claim says classify("3-Pack Blister") is the
blister-pack label, but rule 3 ("pack" present and "booster" absent) fires
before the blister rule, so the code returns "booster pack". -/
theorem classifier_blister_example_counterexample :
    determine_product_type "3-Pack Blister" = "booster pack" ∧
    determine_product_type "3-Pack Blister" ≠ "blister pack" := by
  constructor <;> decide

/-- C2 amended: the rule-precedence examples as the code actually resolves
them: "Scarlet & Violet Booster Box" → booster box, "Elite Trainer Box ETB"
→ elite trainer box, "3-Pack Blister" → booster pack (rule 3 precedes the
blister rule), "Random Plush Toy" → unknown. -/
theorem classifier_examples :
    determine_product_type "Scarlet & Violet Booster Box" = "booster box" ∧
    determine_product_type "Elite Trainer Box ETB" = "elite trainer box" ∧
    determine_product_type "3-Pack Blister" = "booster pack" ∧
    determine_product_type "Random Plush Toy" = "unknown" := by
  refine ⟨?_, ?_, ?_, ?_⟩ <;> decide

/-- C7 counterexample: "Battle Deck" contains "battle deck" and matches no
earlier rule, yet the classifier returns "unknown", not "deck": the code has
no deck rule at all. -/
theorem classifier_no_deck_rule_counterexample :
    strContains (lowerStr "Battle Deck") "battle deck" = true ∧
    determine_product_type "Battle Deck" = "unknown" ∧
    determine_product_type "Battle Deck" ≠ "deck" := by
  refine ⟨?_, ?_, ?_⟩ <;> decide

/-- C7 amended: the classifier has no deck rule: no input whatsoever is
mapped to the "deck" label; names containing "battle deck" or "theme deck"
are resolved by the remaining rules, falling through to "unknown" when none
matches. -/
theorem classifier_never_returns_deck :
    ∀ name, determine_product_type name ≠ "deck" := by
  intro name
  unfold determine_product_type
  dsimp only
  refine ite_ne_str (by decide) (ite_ne_str (by decide) (ite_ne_str (by decide)
    (ite_ne_str (by decide) (ite_ne_str (by decide) (ite_ne_str (by decide)
    (ite_ne_str (by decide) (ite_ne_str (by decide) (ite_ne_str (by decide)
    (ite_ne_str (by decide) (ite_ne_str (by decide) (ite_ne_str (by decide)
    (ite_ne_str (ite_ne_str (by decide) (by decide)) (by decide)))))))))))))

/-- Match of the regex `(\d+\.\d+)` anchored at the start of `cs`, as Python's
`re` evaluates it: `\d+` greedily takes the maximal digit run; since every
shorter candidate run is followed by another digit rather than `'.'`, the
greedy run is the only one that can be followed by the literal dot, after
which `\d+` again takes the maximal digit run.  Returns the integer-part and
fraction-part digit lists. -/
def decimalAt (cs : List Char) : Option (List Char × List Char) :=
  match cs.takeWhile Char.isDigit, cs.dropWhile Char.isDigit with
  | [], _ => none
  | ds, '.' :: rest2 =>
    match rest2.takeWhile Char.isDigit with
    | [] => none
    | ds2 => some (ds, ds2)
  | _, _ => none

/-- `re.search(r'(\d+\.\d+)', ·)`: try each start position left to right and
return the first (leftmost) match. -/
def searchDecimal : List Char → Option (List Char × List Char)
  | [] => none
  | c :: cs =>
    match decimalAt (c :: cs) with
    | some r => some r
    | none => searchDecimal cs

/-- Value of a digit list read in base 10. -/
def digitsToNat (ds : List Char) : Nat :=
  ds.foldl (fun n c => 10 * n + (c.toNat - 48)) 0

/-- Exact value of the matched decimal `ds.ds2`; the embedding of Python's
`float(...)` on the match (every matched decimal is a finite decimal, modelled
exactly as a rational). -/
def ratOfDecimal (ds ds2 : List Char) : Rat :=
  (digitsToNat ds : Rat) + (digitsToNat ds2 : Rat) / ((10 : Rat) ^ ds2.length)

/-- Price extraction of every retailer check (e.g. pokemon_tcg_tracker.py,
lines 225–232): first `(\d+\.\d+)` match in the price text, converted by
`float`; `none` when the text has no such match (the listing is dropped). -/
def parse_price (s : String) : Option Rat :=
  match searchDecimal s.toList with
  | none => none
  | some (ds, ds2) => some (ratOfDecimal ds ds2)

/-- `is_retail_price` (pokemon_tcg_tracker.py, lines 247–253 and the
identical loops of the other checks): walk the threshold table in order and
accept as soon as a key is a case-insensitive substring of the product-type
text with the price at or below that key's threshold. -/
def is_retail_price : List (String × Rat) → String → Rat → Bool
  | [], _, _ => false
  | (type_name, threshold) :: rest, product_type, price =>
    if strContains (lowerStr product_type) (lowerStr type_name) ∧
        price ≤ threshold then true
    else is_retail_price rest product_type price

/-- C3: a candidate passes the retail-price check iff some threshold-table
key is a case-insensitive substring of its resolved category-label text with
the candidate's price at or below that key's threshold (the loop breaks at
the first such key, so the first match in table order is the authoritative
one); consequently a category label matching no key fails for every price. -/
theorem retail_price_check_iff :
    ∀ (tbl : List (String × Rat)) (product_type : String) (price : Rat),
      (is_retail_price tbl product_type price = true ↔
        ∃ kt ∈ tbl,
          strContains (lowerStr product_type) (lowerStr kt.1) = true ∧
          price ≤ kt.2) ∧
      ((∀ kt ∈ tbl,
          strContains (lowerStr product_type) (lowerStr kt.1) = false) →
        is_retail_price tbl product_type price = false) := by
  intro tbl product_type price
  constructor
  · induction tbl with
    | nil => simp [is_retail_price]
    | cons kt rest ih =>
      obtain ⟨type_name, threshold⟩ := kt
      simp only [is_retail_price]
      split
      · rename_i hc
        simp only [true_iff]
        exact ⟨(type_name, threshold), List.mem_cons_self _ _, hc.1, hc.2⟩
      · rename_i hc
        rw [ih]
        constructor
        · rintro ⟨kt, hmem, hsub, hle⟩
          exact ⟨kt, List.mem_cons_of_mem _ hmem, hsub, hle⟩
        · rintro ⟨kt, hmem, hsub, hle⟩
          rcases List.mem_cons.mp hmem with heq | hmem2
          · subst heq
            exact absurd ⟨hsub, hle⟩ hc
          · exact ⟨kt, hmem2, hsub, hle⟩
  · intro hnone
    induction tbl with
    | nil => simp [is_retail_price]
    | cons kt rest ih =>
      obtain ⟨type_name, threshold⟩ := kt
      simp only [is_retail_price]
      split
      · rename_i hc
        have := hnone (type_name, threshold) (List.mem_cons_self _ _)
        simp_all
      · exact ih fun k hk => hnone k (List.mem_cons_of_mem _ hk)

/-- Witness for C3: with the one-key table {"plush" ↦ 10}, the category
"booster box" matches no key, so the check fails even at price 5. -/
theorem retail_price_check_iff_witness :
    is_retail_price [("plush", 10)] "booster box" 5 = false :=
  (retail_price_check_iff [("plush", 10)] "booster box" 5).2 (by decide)

/-- Evaluation of the price extraction on "1,999.00": the leftmost
`(\d+\.\d+)` match starts after the comma. -/
theorem parse_price_comma_eval : parse_price "1,999.00" = some 999 := by
  have hs : searchDecimal "1,999.00".toList =
      some (['9', '9', '9'], ['0', '0']) := by decide
  have hv : ratOfDecimal ['9', '9', '9'] ['0', '0'] = 999 := by
    have h1 : digitsToNat ['9', '9', '9'] = 999 := by decide
    have h2 : digitsToNat ['0', '0'] = 0 := by decide
    unfold ratOfDecimal
    rw [h1, h2]
    norm_num
  unfold parse_price
  rw [hs]
  show some (ratOfDecimal ['9', '9', '9'] ['0', '0']) = some 999
  rw [hv]

/-- C8 counterexample: the claim says parse("1,999.00") = 1999.00, but the
code searches for the first `(\d+\.\d+)` match without stripping thousands
separators, and the comma forces the leftmost match to be "999.00". -/
theorem parse_price_thousands_counterexample :
    parse_price "1,999.00" = some 999 ∧ parse_price "1,999.00" ≠ some 1999 := by
  refine ⟨parse_price_comma_eval, ?_⟩
  rw [parse_price_comma_eval]
  intro h
  have := Option.some.inj h
  norm_num at this

/-- C8 amended: price parsing takes the first decimal-number match with no
thousands-separator stripping: parse("$143.99") = 143.99, while
parse("1,999.00") = 999.00 because the comma splits the match; a price text
with no digit-decimal pattern parses to none (on which the retailer checks
drop the listing), and the parser is a total function that never crashes. -/
theorem parse_price_behaviour :
    parse_price "$143.99" = some (14399 / 100) ∧
    parse_price "1,999.00" = some 999 ∧
    (∀ s, searchDecimal s.toList = none → parse_price s = none) := by
  refine ⟨?_, ?_, ?_⟩
  · have hs : searchDecimal "$143.99".toList =
        some (['1', '4', '3'], ['9', '9']) := by decide
    have h1 : digitsToNat ['1', '4', '3'] = 143 := by decide
    have h2 : digitsToNat ['9', '9'] = 99 := by decide
    unfold parse_price
    rw [hs]
    show some (ratOfDecimal ['1', '4', '3'] ['9', '9']) = some (14399 / 100)
    unfold ratOfDecimal
    rw [h1, h2]
    simp only [Option.some.injEq, List.length_cons, List.length_nil]
    norm_num
  · exact parse_price_comma_eval
  · intro s h
    unfold parse_price
    rw [h]

/-- Witness for C8 at a concrete unparseable price text: "Out of stock" has
no digit-decimal pattern and parses to none; the two concrete parses hold. -/
theorem parse_price_behaviour_witness :
    parse_price "$143.99" = some (14399 / 100) ∧
    parse_price "1,999.00" = some 999 ∧
    parse_price "Out of stock" = none :=
  ⟨parse_price_behaviour.1, parse_price_behaviour.2.1,
   parse_price_behaviour.2.2 "Out of stock" (by decide)⟩

/-- A product record as built by the retailer checks: the dict
{name, price, url, store, type}; `ptype` models the optional 'type' key
(`none` when the key is absent). -/
structure StockItem where
  name : String
  price : Rat
  url : String
  store : String
  ptype : Option String
deriving DecidableEq

/-- The allow-list of `validate_products` (pokemon_tcg_tracker.py,
lines 123–127). -/
def tcg_keywords : List String :=
  ["booster", "pack", "elite trainer box", "etb", "tin", "collection",
   "tcg ", "trading card game", "pokemon cards", "card box", "deck",
   "display box", "paldea", "scarlet", "violet", "paradox", "tera"]

/-- The name deny-list of `validate_products` (lines 130–135). -/
def exclude_terms : List String :=
  ["plush", "figure", "toy", "funko", "costume", "shirt", "t-shirt",
   "video game", "switch", "playmat", "binder", "sleeves", "case",
   "storage", "phone", "poster", "hat", "bag", "backpack", "keychain",
   "notebook", "sticker", "mug", "controller", "console"]

/-- The URL deny-list of `validate_products` (line 147). -/
def url_exclude_patterns : List String :=
  ["apparel", "accessories", "toys", "plush", "games", "collectibles/figures"]

/-- `self.recent_expansions` (lines 35–40). -/
def recent_expansions : List String :=
  ["scarlet", "violet", "paldea", "paradox rift", "twilight masquerade",
   "temporal forces", "pocket monsters", "obsidian flames", "paldean fates",
   "151", "crown zenith", "silver tempest", "lost origin",
   "astral radiance", "brilliant stars", "celebrations"]

/-- The definite-TCG-term list of `validate_products` (line 167). -/
def definite_tcg_terms : List String :=
  ["booster box", "elite trainer box", "pokemon tcg", "trading card game"]

/-- Gate 1 of `validate_products` (lines 142–144): no deny-list term occurs
in the lowered name. -/
def no_excluded_term (p : StockItem) : Bool :=
  !(exclude_terms.any fun t => strContains (lowerStr p.name) t)

/-- Gate 2 (lines 147–149): no deny-list pattern occurs in the lowered URL. -/
def url_pattern_ok (p : StockItem) : Bool :=
  !(url_exclude_patterns.any fun t => strContains (lowerStr p.url) t)

/-- Gate 3 (lines 152–154): at least one allow-list keyword occurs in the
lowered name. -/
def has_tcg_keyword (p : StockItem) : Bool :=
  tcg_keywords.any fun k => strContains (lowerStr p.name) k

/-- Gate 4 (lines 157–161): when a 'type' key is present and is neither
"unknown" nor a substring of the lowered name, the item survives only via
the booster-box carve-out: type "booster box" with the name containing both
"box" and "booster" (not necessarily contiguously). -/
def type_matches_name (p : StockItem) : Bool :=
  match p.ptype with
  | none => true
  | some t =>
    if t != "unknown" && !(strContains (lowerStr p.name) t) then
      t == "booster box" && strContains (lowerStr p.name) "box" &&
        strContains (lowerStr p.name) "booster"
    else true

/-- Gate 5 (lines 166–171): a recent-expansion term or a definite TCG term
occurs in the lowered name. -/
def has_currency_evidence (p : StockItem) : Bool :=
  (recent_expansions.any fun e => strContains (lowerStr p.name) e) ||
  (definite_tcg_terms.any fun t => strContains (lowerStr p.name) t)

/-- `validate_products` (pokemon_tcg_tracker.py, lines 115–176): keep
exactly the items that pass all five gates, in input order, unmodified. -/
def validate_products (products : List StockItem) : List StockItem :=
  products.filter fun p =>
    no_excluded_term p && url_pattern_ok p && has_tcg_keyword p &&
    type_matches_name p && has_currency_evidence p

/-- C4: the Authenticity Filter is a strict reduction: every output item is
an unmodified element of the input list and satisfies all five gating
checks; no item is ever auto-corrected. -/
theorem validate_products_subset_and_checks :
    ∀ (l : List StockItem) (p : StockItem), p ∈ validate_products l →
      p ∈ l ∧ no_excluded_term p = true ∧ url_pattern_ok p = true ∧
      has_tcg_keyword p = true ∧ type_matches_name p = true ∧
      has_currency_evidence p = true := by
  intro l p hp
  rw [validate_products, List.mem_filter] at hp
  obtain ⟨hmem, hpred⟩ := hp
  simp only [Bool.and_eq_true] at hpred
  exact ⟨hmem, hpred.1.1.1.1, hpred.1.1.1.2, hpred.1.1.2, hpred.1.2, hpred.2⟩

/-- A concrete product that passes all five gates of `validate_products`. -/
def sampleValidItem : StockItem :=
  { name := "Pokemon TCG: Scarlet & Violet Booster Box"
    price := 150
    url := "https://www.pokemoncenter.com/product/699"
    store := "Pokemon Center"
    ptype := some "booster box" }

/-- Witness for C4 at a concrete input: `sampleValidItem` survives the
filter, is an element of the input, and passes every gate. -/
theorem validate_products_subset_and_checks_witness :
    sampleValidItem ∈ [sampleValidItem] ∧
    no_excluded_term sampleValidItem = true ∧
    url_pattern_ok sampleValidItem = true ∧
    has_tcg_keyword sampleValidItem = true ∧
    type_matches_name sampleValidItem = true ∧
    has_currency_evidence sampleValidItem = true :=
  validate_products_subset_and_checks [sampleValidItem] sampleValidItem
    (by decide)

/-- An HTTP response as far as `fetch_page` inspects one: its status code
and its body text. -/
structure HttpResponse where
  status : Nat
  body : String
deriving DecidableEq

/-- The network environment of `fetch_page`: the outcome of each attempt,
indexed by attempt number; `none` is a transport failure (the
`requests.RequestException` raised by `requests.get`, e.g. a timeout). -/
def FetchOracle : Type := Nat → Option HttpResponse

/-- `response.raise_for_status()` raises exactly for 4xx/5xx statuses. -/
def errorStatus (status : Nat) : Bool :=
  decide (400 ≤ status) && decide (status < 600)

/-- An attempt fails (enters the `except` branch) iff it is a transport
failure or its status is an error status. -/
def attemptFails (r : Option HttpResponse) : Bool :=
  match r with
  | none => true
  | some resp => errorStatus resp.status

/-- The retry loop of `fetch_page` (pokemon_tcg_tracker.py, lines 54–68):
`fuel` is the number of attempts still allowed including the current one
(`for attempt in range(max_retries)`); a failed attempt that is not the last
sleeps `2 ^ attempt` seconds and retries.  Returns the result together with
the list of backoff waits performed. -/
def fetchAux (oracle : FetchOracle) : Nat → Nat → Option String × List Nat
  | _, 0 => (none, [])
  | attempt, fuel + 1 =>
    match oracle attempt with
    | some resp =>
      if errorStatus resp.status then
        if fuel = 0 then (none, [])
        else
          let r := fetchAux oracle (attempt + 1) fuel
          (r.1, 2 ^ attempt :: r.2)
      else (some resp.body, [])
    | none =>
      if fuel = 0 then (none, [])
      else
        let r := fetchAux oracle (attempt + 1) fuel
        (r.1, 2 ^ attempt :: r.2)

/-- `fetch_page` with `max_retries = 3`: the markup, or `none` after the
attempts are exhausted. -/
def fetch_page (oracle : FetchOracle) : Option String :=
  (fetchAux oracle 0 3).1

/-- The exponential-backoff waits `fetch_page` performs. -/
def fetch_waits (oracle : FetchOracle) : List Nat :=
  (fetchAux oracle 0 3).2

/-- `fetchAux` only consults the oracle on attempts `attempt ≤ i <
attempt + fuel`. -/
theorem fetchAux_congr (fuel : Nat) :
    ∀ (attempt : Nat) (o1 o2 : FetchOracle),
      (∀ i, attempt ≤ i → i < attempt + fuel → o1 i = o2 i) →
      fetchAux o1 attempt fuel = fetchAux o2 attempt fuel := by
  induction fuel with
  | zero => intro attempt o1 o2 _; rfl
  | succ n ih =>
    intro attempt o1 o2 h
    have h0 : o1 attempt = o2 attempt := h attempt le_rfl (by omega)
    have hrec := ih (attempt + 1) o1 o2 fun i h1 h2 => h i (by omega) (by omega)
    unfold fetchAux
    rw [h0, hrec]

/-- C5 counterexample: the claim says a response whose body is below the
minimum-size bot-block threshold yields null, but `fetch_page` performs no
body inspection at all: a 200 response with an empty body is returned
as-is. -/
theorem fetch_page_no_bot_block_counterexample :
    fetch_page (fun _ => some { status := 200, body := "" }) = some "" := by
  decide

/-- C5 amended: `fetch_page` makes at most 3 attempts (its result and waits
depend only on the first three oracle answers), and when every attempt fails
by transport failure or a 4xx/5xx status (which covers 403, 429 and 503) it
returns null — being a total function it never raises — after exponential
backoff waits of 2^0 and 2^1 seconds between attempts; it performs no
body-content or body-length bot-blocking inspection. -/
theorem fetch_page_retry_behaviour :
    (∀ o1 o2 : FetchOracle, (∀ i, i < 3 → o1 i = o2 i) →
      fetch_page o1 = fetch_page o2 ∧ fetch_waits o1 = fetch_waits o2) ∧
    (∀ o : FetchOracle, (∀ i, i < 3 → attemptFails (o i) = true) →
      fetch_page o = none ∧ fetch_waits o = [1, 2]) := by
  constructor
  · intro o1 o2 h
    have := fetchAux_congr 3 0 o1 o2 fun i _ h2 => h i (by omega)
    exact ⟨congrArg Prod.fst this, congrArg Prod.snd this⟩
  · intro o h
    have h0 := h 0 (by omega)
    have h1 := h 1 (by omega)
    have h2 := h 2 (by omega)
    unfold fetch_page fetch_waits
    rcases ho0 : o 0 with _ | r0 <;> rw [ho0] at h0 <;>
      rcases ho1 : o 1 with _ | r1 <;> rw [ho1] at h1 <;>
      rcases ho2 : o 2 with _ | r2 <;> rw [ho2] at h2 <;>
      simp_all [fetchAux, attemptFails]

/-- Witness for C5 at a concrete oracle: all three attempts time out
(transport failure), so the fetch yields null after waits of 1 and 2
seconds; and a copy of that oracle behaves identically. -/
theorem fetch_page_retry_behaviour_witness :
    (fetch_page (fun _ => none) = fetch_page (fun _ => none) ∧
      fetch_waits (fun _ => none) = fetch_waits (fun _ => none)) ∧
    (fetch_page (fun _ => none) = none ∧
      fetch_waits (fun _ => none) = [1, 2]) :=
  ⟨fetch_page_retry_behaviour.1 (fun _ => none) (fun _ => none)
      (fun _ _ => rfl),
   fetch_page_retry_behaviour.2 (fun _ => none) (fun _ _ => rfl)⟩

/-- The embedding of Python's `str.strip()`: drop whitespace from both
ends. -/
def pstrip (s : String) : String :=
  String.mk
    (((s.toList.dropWhile Char.isWhitespace).reverse.dropWhile
      Char.isWhitespace).reverse)

/-- The embedding of Python's `str.startswith`. -/
def strStartsWith (s pre : String) : Bool :=
  pre.toList.isPrefixOf s.toList

/-- One product element of a retailer page, as far as a check inspects it:
the `.text` of the first matching name/price/availability selector and the
`href` attribute of the name element and of the first matching link element
(`none` models a selector with no match, or a missing `href` attribute —
looking the latter up raises `KeyError`, which the per-item `except` turns
into a skip). -/
structure ProductElem where
  nameText : Option String
  nameHref : Option String
  priceText : Option String
  availText : Option String
  linkHref : Option String
deriving DecidableEq

/-- The Pokemon Center check's TCG keyword list (lines 217–218). -/
def pc_tcg_keywords : List String :=
  ["booster", "pack", "box", "etb", "elite trainer", "tin", "collection",
   "deck", "tcg", "card", "pokemon cards", "trading card"]

/-- The Pokemon Center check's URL double-check terms (line 239). -/
def pc_url_terms : List String := ["trading-card", "tcg", "booster", "cards"]

/-- Per-element processing of `check_pokemoncenter` (lines 193–267): require
name, price and link elements, filter by TCG keywords, parse the price,
absolutize the URL, double-check the URL terms, read the availability text,
classify, and keep the item only when in stock at a retail price. -/
def pc_processElem (thr : List (String × Rat)) (e : ProductElem) :
    Option StockItem :=
  match e.nameText, e.priceText, e.linkHref with
  | some nameRaw, some priceRaw, some href =>
    let name := pstrip nameRaw
    if !(pc_tcg_keywords.any fun k => strContains (lowerStr name) k) then none
    else
      match parse_price (pstrip priceRaw) with
      | none => none
      | some price =>
        let product_url := if strStartsWith href "http" then href
          else "https://www.pokemoncenter.com" ++ href
        if !(pc_url_terms.any fun t =>
            strContains (lowerStr product_url) t) then none
        else
          let in_stock_status :=
            match e.availText with
            | some a => strContains (lowerStr a) "in stock" ||
                strContains (lowerStr a) "add to cart"
            | none => false
          let product_type := determine_product_type name
          if in_stock_status && is_retail_price thr product_type price then
            some { name := name, price := price, url := product_url,
                   store := "Pokemon Center", ptype := some product_type }
          else none
  | _, _, _ => none

/-- The TCG keyword list shared by the Target and Walmart checks
(lines 306–307, 400–401). -/
def search_tcg_keywords : List String :=
  ["booster", "pack", "box", "etb", "elite trainer", "tin", "collection",
   "deck", "tcg", "trading card game", "pokemon cards"]

/-- The non-TCG exclusion list shared by the Target, Walmart, Best Buy and
GameStop checks (lines 313–314 etc.). -/
def search_exclude_terms : List String :=
  ["plush", "figure", "toy", "costume", "shirt", "game", "video game",
   "switch", "playmat", "binder", "sleeves", "case", "storage"]

/-- Per-element processing of `check_target` (lines 288–359): like the
Pokemon Center check but with an exclusion list, no URL double-check, and
in-stock assumed true for every search-result listing. -/
def target_processElem (thr : List (String × Rat)) (e : ProductElem) :
    Option StockItem :=
  match e.nameText, e.priceText, e.linkHref with
  | some nameRaw, some priceRaw, some href =>
    let name := pstrip nameRaw
    if !(search_tcg_keywords.any fun k => strContains (lowerStr name) k) then
      none
    else if search_exclude_terms.any fun t =>
        strContains (lowerStr name) t then none
    else
      match parse_price (pstrip priceRaw) with
      | none => none
      | some price =>
        let product_url := if strStartsWith href "http" then href
          else "https://www.target.com" ++ href
        let in_stock_status := true
        let product_type := determine_product_type name
        if in_stock_status && is_retail_price thr product_type price then
          some { name := name, price := price, url := product_url,
                 store := "Target", ptype := some product_type }
        else none
  | _, _, _ => none

/-- Per-element processing of `check_walmart` (lines 380–453): identical to
the Target check up to the URL origin and store label. -/
def walmart_processElem (thr : List (String × Rat)) (e : ProductElem) :
    Option StockItem :=
  match e.nameText, e.priceText, e.linkHref with
  | some nameRaw, some priceRaw, some href =>
    let name := pstrip nameRaw
    if !(search_tcg_keywords.any fun k => strContains (lowerStr name) k) then
      none
    else if search_exclude_terms.any fun t =>
        strContains (lowerStr name) t then none
    else
      match parse_price (pstrip priceRaw) with
      | none => none
      | some price =>
        let product_url := if strStartsWith href "http" then href
          else "https://www.walmart.com" ++ href
        let in_stock_status := true
        let product_type := determine_product_type name
        if in_stock_status && is_retail_price thr product_type price then
          some { name := name, price := price, url := product_url,
                 store := "Walmart", ptype := some product_type }
        else none
  | _, _, _ => none

/-- The TCG keyword list shared by the Best Buy and GameStop checks
(lines 497–498, 593–594): "trading card" in place of "trading card game". -/
def bb_tcg_keywords : List String :=
  ["booster", "pack", "box", "etb", "elite trainer", "tin", "collection",
   "deck", "tcg", "trading card", "pokemon cards"]

/-- Per-element processing of `check_bestbuy` (lines 474–549): the link
element is the name element itself, so its `href` provides the URL; in
stock iff an add-to-cart element exists whose text does not say sold out. -/
def bestbuy_processElem (thr : List (String × Rat)) (e : ProductElem) :
    Option StockItem :=
  match e.nameText, e.priceText with
  | some nameRaw, some priceRaw =>
    let name := pstrip nameRaw
    if !(bb_tcg_keywords.any fun k => strContains (lowerStr name) k) then none
    else if search_exclude_terms.any fun t =>
        strContains (lowerStr name) t then none
    else
      match parse_price (pstrip priceRaw) with
      | none => none
      | some price =>
        match e.nameHref with
        | none => none
        | some href =>
          let product_url := if strStartsWith href "http" then href
            else "https://www.bestbuy.com" ++ href
          let in_stock_status :=
            match e.availText with
            | some a => !(strContains (lowerStr a) "sold out")
            | none => false
          let product_type := determine_product_type name
          if in_stock_status && is_retail_price thr product_type price then
            some { name := name, price := price, url := product_url,
                   store := "Best Buy", ptype := some product_type }
          else none
  | _, _ => none

/-- Per-element processing of `check_gamestop` (lines 570–645): in stock iff
an availability element exists whose text says in stock. -/
def gamestop_processElem (thr : List (String × Rat)) (e : ProductElem) :
    Option StockItem :=
  match e.nameText, e.priceText, e.linkHref with
  | some nameRaw, some priceRaw, some href =>
    let name := pstrip nameRaw
    if !(bb_tcg_keywords.any fun k => strContains (lowerStr name) k) then none
    else if search_exclude_terms.any fun t =>
        strContains (lowerStr name) t then none
    else
      match parse_price (pstrip priceRaw) with
      | none => none
      | some price =>
        let product_url := if strStartsWith href "http" then href
          else "https://www.gamestop.com" ++ href
        let in_stock_status :=
          match e.availText with
          | some a => strContains (lowerStr a) "in stock"
          | none => false
        let product_type := determine_product_type name
        if in_stock_status && is_retail_price thr product_type price then
          some { name := name, price := price, url := product_url,
                 store := "GameStop", ptype := some product_type }
        else none
  | _, _, _ => none

/-- What one retailer check sees of the outside world: the markup the Page
Fetcher returned for the retailer's URL (`none` after terminal fetch
failure) and the product elements the HTML library extracts from given
markup. -/
structure SiteEnv where
  html : Option String
  elems : String → List ProductElem

/-- `check_pokemoncenter` (lines 178–269): an empty or missing page
contributes nothing (`if not html: return []`; the empty string is falsy);
otherwise process each extracted product element. -/
def check_pokemoncenter (thr : List (String × Rat)) (env : SiteEnv) :
    List StockItem :=
  match env.html with
  | none => []
  | some h =>
    if h.isEmpty then [] else (env.elems h).filterMap (pc_processElem thr)

/-- `check_target` (lines 271–361). -/
def check_target (thr : List (String × Rat)) (env : SiteEnv) :
    List StockItem :=
  match env.html with
  | none => []
  | some h =>
    if h.isEmpty then [] else (env.elems h).filterMap (target_processElem thr)

/-- `check_walmart` (lines 363–455). -/
def check_walmart (thr : List (String × Rat)) (env : SiteEnv) :
    List StockItem :=
  match env.html with
  | none => []
  | some h =>
    if h.isEmpty then []
    else (env.elems h).filterMap (walmart_processElem thr)

/-- `check_bestbuy` (lines 457–551). -/
def check_bestbuy (thr : List (String × Rat)) (env : SiteEnv) :
    List StockItem :=
  match env.html with
  | none => []
  | some h =>
    if h.isEmpty then []
    else (env.elems h).filterMap (bestbuy_processElem thr)

/-- `check_gamestop` (lines 553–647). -/
def check_gamestop (thr : List (String × Rat)) (env : SiteEnv) :
    List StockItem :=
  match env.html with
  | none => []
  | some h =>
    if h.isEmpty then []
    else (env.elems h).filterMap (gamestop_processElem thr)

/-- `check_all_sites` (lines 692–718): extend the raw results with each
site's check in sequence, then apply `validate_products`; the result-file
write and the notification are side effects outside the returned value. -/
def check_all_sites (thr : List (String × Rat)) (pc tg wm bb gs : SiteEnv) :
    List StockItem :=
  validate_products (check_pokemoncenter thr pc ++ check_target thr tg ++
    check_walmart thr wm ++ check_bestbuy thr bb ++ check_gamestop thr gs)

/-- C6: a retailer whose fetch failed terminally (null markup, e.g. a URL
that timed out on all 3 attempts) contributes zero candidates, and
`check_all_sites` still processes all remaining retailers: its result is
exactly the validated concatenation of the other four checks. -/
theorem fetch_failure_isolated :
    ∀ (thr : List (String × Rat)) (pc tg wm bb gs : SiteEnv),
      (pc.html = none →
        check_pokemoncenter thr pc = [] ∧
        check_all_sites thr pc tg wm bb gs =
          validate_products (check_target thr tg ++ check_walmart thr wm ++
            check_bestbuy thr bb ++ check_gamestop thr gs)) ∧
      (tg.html = none →
        check_target thr tg = [] ∧
        check_all_sites thr pc tg wm bb gs =
          validate_products (check_pokemoncenter thr pc ++
            check_walmart thr wm ++ check_bestbuy thr bb ++
            check_gamestop thr gs)) ∧
      (wm.html = none →
        check_walmart thr wm = [] ∧
        check_all_sites thr pc tg wm bb gs =
          validate_products (check_pokemoncenter thr pc ++
            check_target thr tg ++ check_bestbuy thr bb ++
            check_gamestop thr gs)) ∧
      (bb.html = none →
        check_bestbuy thr bb = [] ∧
        check_all_sites thr pc tg wm bb gs =
          validate_products (check_pokemoncenter thr pc ++
            check_target thr tg ++ check_walmart thr wm ++
            check_gamestop thr gs)) ∧
      (gs.html = none →
        check_gamestop thr gs = [] ∧
        check_all_sites thr pc tg wm bb gs =
          validate_products (check_pokemoncenter thr pc ++
            check_target thr tg ++ check_walmart thr wm ++
            check_bestbuy thr bb)) := by
  intro thr pc tg wm bb gs
  refine ⟨fun h => ?_, fun h => ?_, fun h => ?_, fun h => ?_, fun h => ?_⟩
  · have hz : check_pokemoncenter thr pc = [] := by
      unfold check_pokemoncenter; rw [h]
    exact ⟨hz, by unfold check_all_sites; rw [hz]; simp⟩
  · have hz : check_target thr tg = [] := by
      unfold check_target; rw [h]
    exact ⟨hz, by unfold check_all_sites; rw [hz]; simp⟩
  · have hz : check_walmart thr wm = [] := by
      unfold check_walmart; rw [h]
    exact ⟨hz, by unfold check_all_sites; rw [hz]; simp⟩
  · have hz : check_bestbuy thr bb = [] := by
      unfold check_bestbuy; rw [h]
    exact ⟨hz, by unfold check_all_sites; rw [hz]; simp⟩
  · have hz : check_gamestop thr gs = [] := by
      unfold check_gamestop; rw [h]
    exact ⟨hz, by unfold check_all_sites; rw [hz]; simp⟩

/-- A retailer environment whose fetch failed terminally. -/
def deadSite : SiteEnv := { html := none, elems := fun _ => [] }

/-- Witness for C6 at concrete environments: with every fetch failed, the
Pokemon Center check is empty and the run is the validation of the other
four checks. -/
theorem fetch_failure_isolated_witness :
    check_pokemoncenter [] deadSite = [] ∧
    check_all_sites [] deadSite deadSite deadSite deadSite deadSite =
      validate_products (check_target [] deadSite ++
        check_walmart [] deadSite ++ check_bestbuy [] deadSite ++
        check_gamestop [] deadSite) :=
  (fetch_failure_isolated [] deadSite deadSite deadSite deadSite
    deadSite).1 rfl

/-- First selector of an ordered fallback chain that yielded a match: the
embedding of the `a or b or c` selector chains. -/
def firstSome : List (Option String) → Option String
  | [] => none
  | some x :: _ => some x
  | none :: rest => firstSome rest

/-- Modelled from the spec: the Link Validator of spec §4.5 is not among the
sources under src/ (the pipeline revision carrying it is not part of the
provided files), so it is modelled from the spec's words: re-fetch
candidate.url via the Page Fetcher, fail closed (false) when the fetch fails
or no recognized title selector matches, otherwise require the lower-cased
expected name (when supplied) as a substring of the lower-cased title,
together with the category evidence: booster box needs "booster" and "box"
in the title, elite trainer box needs ("elite" and "trainer") or "etb", and
any other category needs its label text verbatim. -/
def link_validate (fetched : Option String)
    (titleSelectors : String → List (Option String))
    (expectedName : Option String) (category : String) : Bool :=
  match fetched with
  | none => false
  | some markup =>
    match firstSome (titleSelectors markup) with
    | none => false
    | some title =>
      let tl := lowerStr title
      let nameOk :=
        match expectedName with
        | some n => strContains tl (lowerStr n)
        | none => true
      let catOk :=
        if category = "booster box" then
          strContains tl "booster" && strContains tl "box"
        else if category = "elite trainer box" then
          (strContains tl "elite" && strContains tl "trainer") ||
            strContains tl "etb"
        else strContains tl category
      nameOk && catOk

/-- C9: the Link Validator fails closed: it returns false whenever the
re-fetch of the candidate's URL failed or no recognized title selector
matched, so acceptance implies a successful secondary fetch with a matched
title. -/
theorem link_validator_fails_closed :
    ∀ (fetched : Option String) (sel : String → List (Option String))
      (en : Option String) (cat : String),
      (fetched = none → link_validate fetched sel en cat = false) ∧
      (∀ m, fetched = some m → firstSome (sel m) = none →
        link_validate fetched sel en cat = false) ∧
      (link_validate fetched sel en cat = true →
        ∃ m title, fetched = some m ∧ firstSome (sel m) = some title) := by
  intro fetched sel en cat
  refine ⟨fun h => by rw [h]; rfl, fun m hm hsel => ?_, fun hacc => ?_⟩
  · subst hm
    simp only [link_validate, hsel]
  · rcases hf : fetched with _ | m
    · rw [hf] at hacc
      simp [link_validate] at hacc
    · rw [hf] at hacc
      unfold link_validate at hacc
      dsimp only at hacc
      rcases hsel : firstSome (sel m) with _ | title
      · rw [hsel] at hacc
        simp at hacc
      · exact ⟨m, title, rfl, hsel⟩

/-- Witness for C9 at concrete inputs: a failed fetch is rejected, and so is
a fetched page on which no title selector matches. -/
theorem link_validator_fails_closed_witness :
    link_validate none (fun _ => [none]) (some "x") "tin" = false ∧
    link_validate (some "<html>") (fun _ => [none]) (some "x") "tin" = false :=
  ⟨(link_validator_fails_closed none (fun _ => [none]) (some "x") "tin").1
     rfl,
   (link_validator_fails_closed (some "<html>") (fun _ => [none]) (some "x")
     "tin").2.1 "<html>" rfl rfl⟩

/-- A product record as served by the API (`Product` model of index.py,
lines 47–53). -/
structure ApiProduct where
  name : String
  price : Rat
  url : String
  store : String
  ptype : String
  image : Option String
deriving DecidableEq

/-- The process-wide state of index.py: `last_results`, `last_update_time`
(abstracted to its isoformat text) and `is_scraping`. -/
structure AppState where
  last_results : List ApiProduct
  last_update_time : Option String
  is_scraping : Bool

/-- The initial global state (index.py, lines 55–58): no results, no update
time, not scraping. -/
def initialState : AppState :=
  { last_results := [], last_update_time := none, is_scraping := false }

/-- `GET /api/products` (index.py, lines 72–74): returns `last_results`. -/
def get_products (s : AppState) : List ApiProduct := s.last_results

/-- The JSON object `GET /api/status` serves. -/
structure StatusResponse where
  last_update : Option String
  products_count : Nat
  is_scraping : Bool
  retailers : List String
deriving DecidableEq

/-- `GET /api/status` (index.py, lines 77–84).  Python's `set` iteration
order is arbitrary; `eraseDups` (first occurrences kept) is one realization
of it, and the claim only exercises the empty case, where the code short-
circuits to `[]` anyway. -/
def get_status (s : AppState) : StatusResponse :=
  { last_update := s.last_update_time
    products_count := s.last_results.length
    is_scraping := s.is_scraping
    retailers :=
      if s.last_results.isEmpty then []
      else (s.last_results.map (fun p => p.store)).eraseDups }

/-- C10: before any scrape run, the read endpoints serve the well-defined
empty initial state: `/api/products` is the empty list and `/api/status` is
{last_update = null, products_count = 0, is_scraping = false, retailers =
[]}; both are total functions of the state and never raise. -/
theorem initial_state_reads :
    get_products initialState = [] ∧
    get_status initialState =
      { last_update := none, products_count := 0, is_scraping := false,
        retailers := [] } :=
  ⟨rfl, rfl⟩
